import Mathlib

/-!
# Verification of `keras_nlp/models/task.py` (`Task` base class)

A shallow embedding of the `Task` orchestrator class: attribute slots with
`getattr` defaults, `preprocess_samples`, `get_config` / `from_config`
serialization, the `layers` listing, the loss/activation mismatch check run
by `compile`, the `presets` class property, and the `from_preset` resolution
algorithm. Each definition is translated from the Python source; theorems
below settle the specification's claims about them.
-/

namespace KerasNLP

/-! ## Attribute slots and the `backbone` / `preprocessor` properties

Python objects hold attributes in a dictionary; an attribute that was never
assigned is absent. We model a single attribute slot as
`Option α`: `none` means the attribute was never assigned, `some v` means the
last assignment wrote `v`. `getattr(obj, name, default)` returns the default
when the slot is absent; the default-free form raises `AttributeError`.
-/

/-- `getattr(obj, name, default)`: the stored value when the attribute slot
was assigned, the default otherwise. -/
def getattrD {α : Type} (slot : Option α) (default : α) : α :=
  match slot with
  | none => default
  | some v => v

/-- `getattr(obj, name)` without a default: raises `AttributeError` when the
slot was never assigned. -/
def getattrStrict {α : Type} (slot : Option α) : Except String α :=
  match slot with
  | none => Except.error "AttributeError"
  | some v => Except.ok v

/-- An opaque Keras layer object: identity plus the class name and config
that `keras.layers.serialize` records for it. -/
structure Layer where
  className : String
  config : Nat
  deriving DecidableEq, Repr

/-- The mutable attribute state of a `Task` instance relevant to the
`backbone` and `preprocessor` properties.  A slot of `none` means the
underscore-prefixed attribute (`_backbone` / `_preprocessor`) was never
assigned; `some v` means it currently holds `v`, where `v` itself is an
optional layer (Python code may assign `None`). -/
structure TaskAttrs where
  backboneSlot : Option (Option Layer)
  preprocessorSlot : Option (Option Layer)
  deriving Repr

/-- A freshly constructed object: no underscore attribute assigned yet. -/
def TaskAttrs.fresh : TaskAttrs :=
  { backboneSlot := none, preprocessorSlot := none }

/-- The `backbone` property getter: `getattr(self, "_backbone", None)`. -/
def TaskAttrs.backbone (t : TaskAttrs) : Option Layer :=
  getattrD t.backboneSlot none

/-- The `backbone` property setter: `self._backbone = value`. -/
def TaskAttrs.setBackbone (t : TaskAttrs) (v : Option Layer) : TaskAttrs :=
  { t with backboneSlot := some v }

/-- The `preprocessor` property getter:
`getattr(self, "_preprocessor", None)`. -/
def TaskAttrs.preprocessor (t : TaskAttrs) : Option Layer :=
  getattrD t.preprocessorSlot none

/-- The `preprocessor` property setter: `self._preprocessor = value`. -/
def TaskAttrs.setPreprocessor (t : TaskAttrs) (v : Option Layer) : TaskAttrs :=
  { t with preprocessorSlot := some v }

/-! ## `preprocess_samples`

```python
def preprocess_samples(self, x, y=None, sample_weight=None):
    if self.preprocessor is not None:
        return self.preprocessor(x, y=y, sample_weight=sample_weight)
    else:
        return super().preprocess_samples(x, y, sample_weight)
```

The preprocessor is an arbitrary callable on `(x, y, sample_weight)`; we
keep the data abstract over types `X`, `Y`, `W`.
-/

/-- Modelled from the spec: `PipelineModel.preprocess_samples` (the
`super()` implementation, in `keras_nlp/utils/pipeline_model.py`, outside
the provided sources) lets inputs "flow through unmodified": it returns
`x`, `y` and `sample_weight` unchanged. -/
def pipelinePreprocessSamples {X Y W : Type} (x : X) (y : Option Y)
    (sample_weight : Option W) : X × Option Y × Option W :=
  (x, y, sample_weight)

/-- `Task.preprocess_samples`: delegate to the preprocessor callable when
one is set, otherwise fall back to the pipeline default. -/
def taskPreprocessSamples {X Y W : Type}
    (preprocessor : Option (X → Option Y → Option W → X × Option Y × Option W))
    (x : X) (y : Option Y) (sample_weight : Option W) :
    X × Option Y × Option W :=
  match preprocessor with
  | some f => f x y sample_weight
  | none => pipelinePreprocessSamples x y sample_weight

/-! ## `get_config` / `from_config`

```python
def get_config(self):
    return {
        "backbone": keras.layers.serialize(self.backbone),
        "preprocessor": keras.layers.serialize(self.preprocessor),
        "name": self.name,
    }

@classmethod
def from_config(cls, config):
    if "backbone" in config and isinstance(config["backbone"], dict):
        config["backbone"] = keras.layers.deserialize(config["backbone"])
    if "preprocessor" in config and isinstance(config["preprocessor"], dict):
        config["preprocessor"] = keras.layers.deserialize(config["preprocessor"])
    return cls(**config)
```

`keras.layers.serialize(None)` is `None`; on a layer it produces the dict
`{"class_name": ..., "config": ...}` and `keras.layers.deserialize`
rebuilds a layer with that class name and config.
-/

/-- The serialized form of a layer: the dict
`{"class_name": ..., "config": ...}` emitted by `keras.layers.serialize`. -/
structure SerializedLayer where
  className : String
  config : Nat
  deriving DecidableEq, Repr

/-- `keras.layers.serialize` on an optional layer (`None` maps to `None`). -/
def serializeLayer (l : Option Layer) : Option SerializedLayer :=
  match l with
  | none => none
  | some l => some { className := l.className, config := l.config }

/-- `keras.layers.deserialize`: rebuild the layer described by a
serialization dict. -/
def deserializeLayer (s : SerializedLayer) : Layer :=
  { className := s.className, config := s.config }

/-- The observable construction state of a `Task` instance for
serialization purposes: its `backbone` and `preprocessor` properties and
its `name`. -/
structure TaskObj where
  backbone : Option Layer
  preprocessor : Option Layer
  name : String
  deriving DecidableEq, Repr

/-- The flat config dict produced by `Task.get_config`: exactly the keys
`"backbone"`, `"preprocessor"` (each `None` or a serialization dict) and
`"name"`. -/
structure TaskConfig where
  backbone : Option SerializedLayer
  preprocessor : Option SerializedLayer
  name : String
  deriving DecidableEq, Repr

/-- `Task.get_config`. -/
def TaskObj.get_config (t : TaskObj) : TaskConfig :=
  { backbone := serializeLayer t.backbone
    preprocessor := serializeLayer t.preprocessor
    name := t.name }

/-- `Task.from_config`: deserialize the `"backbone"` and `"preprocessor"`
entries when they are dicts (`isinstance(..., dict)` is false for `None`),
then invoke the constructor with the resulting keyword arguments. -/
def TaskObj.from_config (c : TaskConfig) : TaskObj :=
  { backbone := c.backbone.map deserializeLayer
    preprocessor := c.preprocessor.map deserializeLayer
    name := c.name }

/-! ## The `layers` property

```python
@property
def layers(self):
    layers = super().layers
    if self.preprocessor and self.preprocessor in layers:
        layers.remove(self.preprocessor)
    return layers
```

`list.remove` deletes the first occurrence; `self.preprocessor` is truthy
exactly when it is not `None` (Keras layer objects are truthy).
-/

/-- `Task.layers`: the superclass layer listing with the first occurrence
of the preprocessor removed when a preprocessor is set and present. -/
def taskLayers (superLayers : List Layer) (preprocessor : Option Layer) :
    List Layer :=
  match preprocessor with
  | some p => if p ∈ superLayers then superLayers.erase p else superLayers
  | none => superLayers

/-! ## `_check_for_loss_mismatch` and `compile`

```python
def _check_for_loss_mismatch(self, loss):
    if isinstance(loss, (dict, list, tuple)):
        return
    if not hasattr(self, "activation"):
        return
    loss = keras.losses.get(loss)
    activation = keras.activations.get(self.activation)
    if isinstance(loss, keras.losses.SparseCategoricalCrossentropy):
        from_logits = loss.get_config()["from_logits"]
    elif loss == keras.losses.sparse_categorical_crossentropy:
        from_logits = False
    else:
        return
    softmax_output = activation == keras.activations.softmax
    logit_output = activation == keras.activations.linear
    if softmax_output and from_logits:
        raise ValueError(...)
    if logit_output and not from_logits:
        raise ValueError(...)

def compile(self, optimizer="rmsprop", loss=None, **kwargs):
    if config.backend() == "torch":
        kwargs["jit_compile"] = False
    self._check_for_loss_mismatch(loss)
    super().compile(optimizer=optimizer, loss=loss, **kwargs)
```

`keras.losses.get` resolves identifiers to loss objects; we take losses
already resolved, except that the bare function
`keras.losses.sparse_categorical_crossentropy` stays a distinct value
(hit by the `elif` branch with `from_logits = False`).
`keras.activations.get(None)` resolves to the linear activation.
-/

/-- The resolved value of `keras.losses.get(loss)` for a single
(non-dict/list/tuple) loss argument. -/
inductive Loss where
  /-- An instance of `keras.losses.SparseCategoricalCrossentropy` with its
  `from_logits` config flag. -/
  | sccObject (from_logits : Bool)
  /-- The bare function `keras.losses.sparse_categorical_crossentropy`. -/
  | sccFunction
  /-- Any other loss, identified opaquely. -/
  | otherLoss (id : Nat)
  deriving DecidableEq, Repr

/-- The `loss` argument passed to `compile`: a single loss or a composite
container (dict, list or tuple). -/
inductive LossArg where
  | single (l : Loss)
  | dictArg (ls : List (String × Loss))
  | listArg (ls : List Loss)
  | tupleArg (ls : List Loss)
  deriving DecidableEq, Repr

/-- The raw value of a task's `activation` attribute, before resolution by
`keras.activations.get`. -/
inductive ActivationSpec where
  /-- `self.activation is None`. -/
  | noneSpec
  /-- `"softmax"` (or the softmax function). -/
  | softmaxSpec
  /-- `"linear"` (or the linear function). -/
  | linearSpec
  /-- Any other activation, identified opaquely. -/
  | otherSpec (id : Nat)
  deriving DecidableEq, Repr

/-- A resolved activation function. -/
inductive Activation where
  | softmax
  | linear
  | otherAct (id : Nat)
  deriving DecidableEq, Repr

/-- `keras.activations.get`: `None` resolves to the linear activation. -/
def activationsGet (a : ActivationSpec) : Activation :=
  match a with
  | .noneSpec => .linear
  | .softmaxSpec => .softmax
  | .linearSpec => .linear
  | .otherSpec n => .otherAct n

/-- The two `ValueError`s `_check_for_loss_mismatch` can raise. -/
inductive LossMismatchError where
  /-- Loss expects logits but the model outputs softmax probabilities. -/
  | softmaxWithLogitsLoss
  /-- Loss expects probabilities but the model outputs logits. -/
  | logitsWithProbabilityLoss
  deriving DecidableEq, Repr

/-- `Task._check_for_loss_mismatch`.  `activationAttr` is `none` when the
task has no `activation` attribute (`hasattr` is false), and `some a`
when the attribute holds raw value `a`. -/
def check_for_loss_mismatch (activationAttr : Option ActivationSpec)
    (loss : LossArg) : Except LossMismatchError Unit := do
  -- Only handle a single loss.
  match loss with
  | .dictArg _ => return ()
  | .listArg _ => return ()
  | .tupleArg _ => return ()
  | .single l =>
    -- Only handle tasks with activation.
    match activationAttr with
    | none => return ()
    | some attr =>
      let activation := activationsGet attr
      let from_logits? : Option Bool :=
        match l with
        | .sccObject b => some b
        | .sccFunction => some false
        | .otherLoss _ => none
      match from_logits? with
      | none => return ()
      | some from_logits =>
        let softmax_output := activation = Activation.softmax
        let logit_output := activation = Activation.linear
        if softmax_output ∧ from_logits then
          throw .softmaxWithLogitsLoss
        else if logit_output ∧ ¬ from_logits then
          throw .logitsWithProbabilityLoss
        else
          return ()

/-- `Task.compile`: run the mismatch check, then delegate to the
superclass `compile` (opaque here; its success is `()`). -/
def taskCompile (activationAttr : Option ActivationSpec) (loss : LossArg) :
    Except LossMismatchError Unit := do
  check_for_loss_mismatch activationAttr loss
  return ()

/-! ## `from_preset`

```python
@classmethod
def from_preset(cls, preset, load_weights=True, **kwargs):
    if cls == Task:
        raise ValueError("Do not call `Task.from_preset()` directly...")
    if "backbone" in kwargs:
        raise ValueError("You cannot pass a `backbone` argument...")
    preset_cls = check_config_class(preset)
    if issubclass(preset_cls, Backbone):
        if preset_cls is not cls.backbone_cls:
            subclasses = list_subclasses(cls)
            subclasses = tuple(filter(lambda x: x.backbone_cls == preset_cls, subclasses))
            if len(subclasses) == 0:
                raise ValueError("No registered subclass ...")
            if len(subclasses) > 1:
                raise ValueError("Ambiguous call ...")
            cls = subclasses[0]
        config_overrides = {}
        if "dtype" in kwargs:
            config_overrides["dtype"] = kwargs.pop("dtype")
        backbone = load_from_preset(preset, load_weights=load_weights,
                                    config_overrides=config_overrides)
        if "preprocessor" in kwargs:
            preprocessor = kwargs.pop("preprocessor")
        else:
            tokenizer = load_from_preset(preset, config_file="tokenizer.json")
            preprocessor = cls.preprocessor_cls(tokenizer=tokenizer)
        return cls(backbone=backbone, preprocessor=preprocessor, **kwargs)
    if not issubclass(preset_cls, cls):
        raise ValueError("Preset has type ... Call `from_preset` directly on ...")
    return load_from_preset(preset, load_weights=load_weights,
                            config_overrides=kwargs)
```

Classes, backbone classes and presets are opaque identifiers; the external
collaborators (`check_config_class`, `list_subclasses`, `load_from_preset`,
the class hierarchy) form an explicit environment.
-/

/-- An identifier for a concrete `Task` class (or the `Task` base class). -/
abbrev ClassId := Nat

/-- An identifier for a `Backbone` subclass. -/
abbrev BackboneId := Nat

/-- An identifier for a preset (built-in name, handle, or path). -/
abbrev PresetId := Nat

/-- Keyword arguments as a key-value list with unique keys (a Python
`**kwargs` dict); values are opaque. -/
abbrev Kwargs := List (String × Nat)

/-- `kwargs.pop(key)` when present: the value and the remaining dict. -/
def kwargsPop (kwargs : Kwargs) (key : String) : Option Nat × Kwargs :=
  match kwargs.lookup key with
  | some v => (some v, kwargs.filter (fun kv => kv.1 ≠ key))
  | none => (none, kwargs)

/-- The class recorded in a preset's saved configuration, as returned by
`check_config_class`: either a `Backbone` subclass or a `Task` subclass. -/
inductive PresetClass where
  | backboneCls (b : BackboneId)
  | taskCls (t : ClassId)
  deriving DecidableEq, Repr

/-- The registry environment `from_preset` consults: the class hierarchy
and the external preset-loading collaborators. -/
structure Env where
  /-- The id of the abstract base class `Task` itself. -/
  taskBase : ClassId
  /-- `cls.__name__`. -/
  className : ClassId → String
  /-- `cls.backbone_cls` (the class attribute; `None` if unset). -/
  backbone_cls : ClassId → Option BackboneId
  /-- `cls.preprocessor_cls`, as an opaque constructor id. -/
  preprocessor_cls : ClassId → Nat
  /-- `list_subclasses(cls)`: all registered subclasses of `cls`. -/
  list_subclasses : ClassId → List ClassId
  /-- `issubclass(a, b)` restricted to task classes. -/
  issub : ClassId → ClassId → Bool
  /-- `Backbone` subclass `__name__`. -/
  backboneName : BackboneId → String
  /-- `check_config_class(preset)`. -/
  check_config_class : PresetId → PresetClass
  /-- `load_from_preset(preset, load_weights, config_overrides)` in the
  backbone case; the override is the popped `dtype`, if any. The result is
  an opaque backbone object. -/
  load_backbone : PresetId → Bool → Option Nat → Nat
  /-- `load_from_preset(preset, config_file="tokenizer.json")`: the loaded
  tokenizer object. -/
  load_tokenizer : PresetId → Nat
  /-- `load_from_preset(preset, load_weights, config_overrides=kwargs)` in
  the task case: the fully constructed task object. -/
  load_task : PresetId → Bool → Kwargs → Nat

/-- The preprocessor handed to the effective class constructor in the
backbone case: either the caller's `preprocessor=` keyword value, or one
constructed as `cls.preprocessor_cls(tokenizer=...)`. -/
inductive PreprocessorValue where
  | provided (v : Nat)
  | constructed (preprocessorCls : Nat) (tokenizer : Nat)
  deriving DecidableEq, Repr

/-- A successful `from_preset` outcome. -/
inductive FromPresetResult where
  /-- Backbone case: `cls(backbone=..., preprocessor=..., **kwargs)` on the
  effective class. -/
  | taskFromBackbone (cls : ClassId) (backbone : Nat)
      (preprocessor : PreprocessorValue) (kwargs : Kwargs)
  /-- Task case: the object returned by `load_from_preset`. -/
  | loadedTask (obj : Nat)
  deriving DecidableEq, Repr

/-- The `ValueError`s `from_preset` can raise. -/
inductive FromPresetError where
  /-- "Do not call `Task.from_preset()` directly." -/
  | calledOnBase
  /-- "You cannot pass a `backbone` argument to the `from_preset` method."
  Carries the calling class name and the received value, as the message
  does. -/
  | backboneArg (callingClass : String) (received : Nat)
  /-- "No registered subclass of `cls` can load a `preset_cls`." -/
  | noSubclass (callingClass : String) (presetBackbone : String)
  /-- "Ambiguous call to `cls.from_preset()`. Found multiple possible
  subclasses ... Please call `from_preset` on a subclass directly." -/
  | ambiguous (callingClass : String) (subclassNames : List String)
  /-- "Preset has type `preset_cls` which is not a subclass of calling
  class `cls`. Call `from_preset` directly on `preset_cls` instead." -/
  | typeMismatch (presetClass : String) (callingClass : String)
  deriving DecidableEq, Repr

/-- `filter(lambda x: x.backbone_cls == preset_cls, list_subclasses(cls))`:
the registered subclasses of `cls` whose `backbone_cls` is the preset's
backbone class. -/
def matchingSubclasses (env : Env) (cls : ClassId) (preset_cls : BackboneId) :
    List ClassId :=
  (env.list_subclasses cls).filter (fun x => env.backbone_cls x = some preset_cls)

/-- `Task.from_preset`, translated step by step from the source. -/
def from_preset (env : Env) (cls : ClassId) (preset : PresetId)
    (load_weights : Bool) (kwargs : Kwargs) :
    Except FromPresetError FromPresetResult := do
  if cls = env.taskBase then
    throw .calledOnBase
  match kwargs.lookup "backbone" with
  | some v => throw (.backboneArg (env.className cls) v)
  | none =>
  match env.check_config_class preset with
  | .backboneCls preset_cls =>
    -- Backbone case.
    let effective : Except FromPresetError ClassId :=
      if env.backbone_cls cls = some preset_cls then
        pure cls
      else
        match matchingSubclasses env cls preset_cls with
        | [] => throw (.noSubclass (env.className cls)
            (env.backboneName preset_cls))
        | [c] => pure c
        | cs => throw (.ambiguous (env.className cls)
            (cs.map env.className))
    let cls ← effective
    let (dtype?, kwargs) := kwargsPop kwargs "dtype"
    let backbone := env.load_backbone preset load_weights dtype?
    let (pre?, kwargs) := kwargsPop kwargs "preprocessor"
    let preprocessor := match pre? with
      | some v => PreprocessorValue.provided v
      | none => PreprocessorValue.constructed (env.preprocessor_cls cls)
          (env.load_tokenizer preset)
    return .taskFromBackbone cls backbone preprocessor kwargs
  | .taskCls preset_cls =>
    -- Task case.
    if ¬ env.issub preset_cls cls then
      throw (.typeMismatch (env.className preset_cls) (env.className cls))
    return .loadedTask (env.load_task preset load_weights kwargs)

/-! ## The `presets` class property

```python
@classproperty
def presets(cls):
    presets = list_presets(cls)
    if cls.backbone_cls is not None:
        presets.update(cls.backbone_cls.presets)
    for subclass in list_subclasses(cls):
        presets.update(subclass.presets)
    return presets
```

Python dicts are key-value sequences with unique keys; `d.update(e)`
overwrites existing keys and appends new ones.  For this recursive
property we model the registered class hierarchy reachable from a class as
a finite tree: each node carries the presets `list_presets` reports
directly for the class, the (already computed, opaque) `presets` mapping
of its `backbone_cls` when that is set, and its registered subclasses.
-/

/-- One entry of a presets mapping: preset name to opaque metadata. -/
abbrev PresetEntry := String × Nat

/-- The keys of a key-value list. -/
def keysOf (d : List PresetEntry) : List String :=
  d.map Prod.fst

/-- Insert one entry into a dict, Python-style: overwrite the value at an
existing key, else append at the end. -/
def dictInsert (d : List PresetEntry) (kv : PresetEntry) : List PresetEntry :=
  if kv.1 ∈ keysOf d then
    d.map (fun e => if e.1 = kv.1 then (e.1, kv.2) else e)
  else
    d ++ [kv]

/-- `d.update(e)` on Python dicts: insert every entry of `e` in order. -/
def dictUpdate (d e : List PresetEntry) : List PresetEntry :=
  e.foldl dictInsert d

/-- A `Task` class together with the registered subclass hierarchy below
it: its own `list_presets` result, its `backbone_cls`'s `presets` mapping
(`none` when `backbone_cls` is unset), and its registered subclasses. -/
inductive TaskClassTree where
  | node (ownPresets : List PresetEntry)
      (backbonePresets : Option (List PresetEntry))
      (subclasses : List TaskClassTree)
  deriving Repr

/-- `list_presets(cls)` updated with `cls.backbone_cls.presets` when the
backbone class is set: the state of `presets` before the subclass loop. -/
def withBackbonePresets (own : List PresetEntry)
    (bp : Option (List PresetEntry)) : List PresetEntry :=
  match bp with
  | none => own
  | some b => dictUpdate own b

mutual

/-- The `presets` class property, evaluated over the class hierarchy. -/
def presetsOf : TaskClassTree → List PresetEntry
  | .node own bp subs => presetsFold (withBackbonePresets own bp) subs

/-- The `for subclass in list_subclasses(cls)` loop: update the
accumulated dict with each subclass's `presets`, in order. -/
def presetsFold (acc : List PresetEntry) : List TaskClassTree → List PresetEntry
  | [] => acc
  | s :: rest => presetsFold (dictUpdate acc (presetsOf s)) rest

end

mutual

/-- The union (as a multiset of key occurrences) of all preset names the
spec says `presets` must cover: own presets, backbone presets, and every
subclass's, recursively. -/
def unionKeys : TaskClassTree → List String
  | .node own bp subs =>
    keysOf own ++
      (match bp with
        | none => []
        | some b => keysOf b) ++
      unionKeysList subs

/-- Union of preset names over a list of subclasses. -/
def unionKeysList : List TaskClassTree → List String
  | [] => []
  | s :: rest => unionKeys s ++ unionKeysList rest

end

mutual

/-- Well-formedness of the modelled hierarchy: every presets mapping in it
is a genuine dict, i.e. has no duplicate keys. -/
def wfTree : TaskClassTree → Bool
  | .node own bp subs =>
    decide (keysOf own).Nodup &&
      (match bp with
        | none => true
        | some b => decide (keysOf b).Nodup) &&
      wfTreeList subs

/-- Well-formedness of a list of subclasses. -/
def wfTreeList : List TaskClassTree → Bool
  | [] => true
  | s :: rest => wfTree s && wfTreeList rest

end

/-! ## Concrete fixtures

A small concrete registry used to evaluate the theorems on explicit
inputs: class `0` is the `Task` base, class `1` a task base class (say
`Classifier`) with registered subclasses `2`, `3`, `4`; backbone classes
`10` and `11`; presets `100`-`104`. -/

/-- A concrete registry environment. Subclasses `2` and `4` share backbone
class `10`; subclass `3` has backbone class `11`; class `5` is a task
class unrelated to class `1`. -/
def exampleEnv : Env :=
  { taskBase := 0
    className := fun n => "C" ++ toString n
    backbone_cls := fun n =>
      if n = 2 then some 10
      else if n = 3 then some 11
      else if n = 4 then some 10
      else none
    preprocessor_cls := fun n => n + 20
    list_subclasses := fun n => if n = 1 then [2, 3, 4] else []
    issub := fun a b => a = b || (b = 1 && (a = 2 || a = 3 || a = 4))
    backboneName := fun b => "B" ++ toString b
    check_config_class := fun p =>
      if p = 100 then .backboneCls 10
      else if p = 101 then .backboneCls 11
      else if p = 102 then .backboneCls 12
      else if p = 103 then .taskCls 5
      else if p = 104 then .taskCls 2
      else .taskCls 0
    load_backbone := fun p _ _ => p + 1
    load_tokenizer := fun p => p + 2
    load_task := fun p _ _ => p + 3 }

/-- A concrete class hierarchy for the `presets` property: a class with
two own presets and a backbone, and one subclass whose presets overlap. -/
def exampleTree : TaskClassTree :=
  .node [("bert_base", 1), ("bert_large", 2)]
    (some [("bert_base", 3), ("bert_tiny", 4)])
    [.node [("bert_base_sst", 5)] none [],
     .node [("bert_tiny", 6), ("bert_extra", 7)] (some [("bert_tiny", 8)]) []]

/-- Two concrete layers for the `layers`-property theorems. -/
def exampleLayerA : Layer := { className := "Dense", config := 1 }

/-- A second concrete layer, standing for a preprocessor. -/
def exampleLayerP : Layer := { className := "Preprocessor", config := 2 }

/-! ## Theorems -/

/-- `throw` in the `Except` monad is `Except.error`. -/
theorem except_throw_eq {ε α : Type} (e : ε) :
    (throw e : Except ε α) = Except.error e := rfl

/-- Binding after an error keeps the error. -/
theorem except_error_bind {ε α β : Type} (e : ε) (f : α → Except ε β) :
    (Except.error e >>= f : Except ε β) = Except.error e := rfl

/-- Mapping over an error keeps the error. -/
theorem except_map_error {ε α β : Type} (f : α → β) (e : ε) :
    (f <$> (Except.error e : Except ε α)) = Except.error e := rfl

/-- Binding after a success applies the continuation. -/
theorem except_ok_bind {ε α β : Type} (a : α) (f : α → Except ε β) :
    (Except.ok a >>= f : Except ε β) = f a := rfl

/-- Mapping over a success applies the function. -/
theorem except_map_ok {ε α β : Type} (f : α → β) (a : α) :
    (f <$> (Except.ok a : Except ε α)) = Except.ok (f a) := rfl

/-- C10: reading the `backbone` (resp. `preprocessor`) property of a task
on which the underscore attribute was never assigned returns `None`
(where attribute access without the default would raise `AttributeError`);
after any assignment the property returns exactly the assigned value. -/
theorem backbone_preprocessor_slot_semantics (t u : TaskAttrs)
    (w w' : Option Layer)
    (hb : t.backboneSlot = none) (hp : t.preprocessorSlot = none) :
    t.backbone = none ∧
    getattrStrict t.backboneSlot = Except.error "AttributeError" ∧
    t.preprocessor = none ∧
    getattrStrict t.preprocessorSlot = Except.error "AttributeError" ∧
    (u.setBackbone w).backbone = w ∧
    (u.setPreprocessor w).preprocessor = w ∧
    ((u.setBackbone w').setBackbone w).backbone = w ∧
    ((u.setPreprocessor w').setPreprocessor w).preprocessor = w := by
  rw [TaskAttrs.backbone, TaskAttrs.preprocessor, hb, hp]
  exact ⟨rfl, rfl, rfl, rfl, rfl, rfl, rfl, rfl⟩

/-- Witness for C10 at the fresh attribute state and a concrete layer. -/
theorem backbone_preprocessor_slot_semantics_witness :
    TaskAttrs.fresh.backboneSlot = none ∧
    TaskAttrs.fresh.preprocessorSlot = none ∧
    (TaskAttrs.fresh.backbone = none ∧
      getattrStrict TaskAttrs.fresh.backboneSlot =
        Except.error "AttributeError" ∧
      TaskAttrs.fresh.preprocessor = none ∧
      getattrStrict TaskAttrs.fresh.preprocessorSlot =
        Except.error "AttributeError" ∧
      (TaskAttrs.fresh.setBackbone (some exampleLayerA)).backbone =
        some exampleLayerA ∧
      (TaskAttrs.fresh.setPreprocessor (some exampleLayerA)).preprocessor =
        some exampleLayerA ∧
      ((TaskAttrs.fresh.setBackbone none).setBackbone
        (some exampleLayerA)).backbone = some exampleLayerA ∧
      ((TaskAttrs.fresh.setPreprocessor none).setPreprocessor
        (some exampleLayerA)).preprocessor = some exampleLayerA) :=
  ⟨rfl, rfl,
    backbone_preprocessor_slot_semantics TaskAttrs.fresh TaskAttrs.fresh
      (some exampleLayerA) none rfl rfl⟩

/-- C4: `preprocess_samples` returns exactly the preprocessor's result
when one is set, and returns `x`, `y`, `sample_weight` unchanged when the
preprocessor is `None`. -/
theorem preprocess_samples_delegates {X Y W : Type}
    (f : X → Option Y → Option W → X × Option Y × Option W)
    (x : X) (y : Option Y) (sw : Option W) :
    taskPreprocessSamples (some f) x y sw = f x y sw ∧
    taskPreprocessSamples none x y sw = (x, y, sw) :=
  ⟨rfl, rfl⟩

/-- C3: `from_config` inverts `get_config`: deserializing the emitted flat
config and re-invoking the constructor rebuilds a task with the same
backbone, preprocessor and name. -/
theorem task_config_roundtrip (t : TaskObj) :
    TaskObj.from_config t.get_config = t ∧
    t.get_config.backbone = serializeLayer t.backbone ∧
    t.get_config.preprocessor = serializeLayer t.preprocessor ∧
    t.get_config.name = t.name := by
  refine ⟨?_, rfl, rfl, rfl⟩
  cases t with
  | mk b p n => cases b <;> cases p <;> rfl

/-- C9: the `layers` property returns the superclass layer listing with
the preprocessor removed when one is set and present; all remaining layers
are unchanged and keep their order (the result is a sublist of the
original listing). -/
theorem layers_excludes_preprocessor (sl : List Layer) (p : Layer)
    (hnd : sl.Nodup) :
    taskLayers sl none = sl ∧
    (p ∉ sl → taskLayers sl (some p) = sl) ∧
    (p ∈ sl →
      taskLayers sl (some p) = sl.erase p ∧
      p ∉ taskLayers sl (some p) ∧
      List.Sublist (taskLayers sl (some p)) sl ∧
      ∀ q : Layer, q ≠ p → (q ∈ taskLayers sl (some p) ↔ q ∈ sl)) := by
  refine ⟨rfl, fun hnp => by simp [taskLayers, hnp], fun hp => ?_⟩
  have he : taskLayers sl (some p) = sl.erase p := by simp [taskLayers, hp]
  refine ⟨he, ?_, ?_, fun q hq => ?_⟩
  · rw [he]
    exact hnd.not_mem_erase
  · rw [he]
    exact List.erase_sublist p sl
  · rw [he]
    exact ⟨fun h => List.mem_of_mem_erase h, fun h =>
      List.mem_erase_of_ne hq |>.mpr h⟩

/-- Witness for C9 on a concrete two-layer listing containing the
preprocessor. -/
theorem layers_excludes_preprocessor_witness :
    [exampleLayerA, exampleLayerP].Nodup ∧
    (taskLayers [exampleLayerA, exampleLayerP] none =
        [exampleLayerA, exampleLayerP] ∧
      (exampleLayerP ∉ [exampleLayerA, exampleLayerP] →
        taskLayers [exampleLayerA, exampleLayerP] (some exampleLayerP) =
          [exampleLayerA, exampleLayerP]) ∧
      (exampleLayerP ∈ [exampleLayerA, exampleLayerP] →
        taskLayers [exampleLayerA, exampleLayerP] (some exampleLayerP) =
          [exampleLayerA, exampleLayerP].erase exampleLayerP ∧
        exampleLayerP ∉
          taskLayers [exampleLayerA, exampleLayerP] (some exampleLayerP) ∧
        List.Sublist
          (taskLayers [exampleLayerA, exampleLayerP] (some exampleLayerP))
          [exampleLayerA, exampleLayerP] ∧
        ∀ q : Layer, q ≠ exampleLayerP →
          (q ∈ taskLayers [exampleLayerA, exampleLayerP]
              (some exampleLayerP) ↔
            q ∈ [exampleLayerA, exampleLayerP]))) :=
  ⟨by decide,
    layers_excludes_preprocessor [exampleLayerA, exampleLayerP]
      exampleLayerP (by decide)⟩

/-- C2: `compile` raises on a single sparse-categorical-crossentropy loss
whose `from_logits` contradicts the task's resolved activation (softmax
with `from_logits=True`, or linear — including `activation=None` — with
`from_logits=False`), does not raise for the matching `from_logits`, and
skips the check entirely for composite losses, other losses, and tasks
without an `activation` attribute. -/
theorem compile_loss_activation_mismatch
    (aS aL : ActivationSpec) (att : Option ActivationSpec)
    (ld : List (String × Loss)) (ls lt : List Loss) (n : Nat) (la : LossArg)
    (hS : activationsGet aS = Activation.softmax)
    (hL : activationsGet aL = Activation.linear) :
    taskCompile (some aS) (.single (.sccObject true)) =
      Except.error .softmaxWithLogitsLoss ∧
    taskCompile (some aS) (.single (.sccObject false)) = Except.ok () ∧
    taskCompile (some aL) (.single (.sccObject false)) =
      Except.error .logitsWithProbabilityLoss ∧
    taskCompile (some aL) (.single (.sccObject true)) = Except.ok () ∧
    taskCompile (some aS) (.single .sccFunction) = Except.ok () ∧
    taskCompile (some aL) (.single .sccFunction) =
      Except.error .logitsWithProbabilityLoss ∧
    taskCompile att (.dictArg ld) = Except.ok () ∧
    taskCompile att (.listArg ls) = Except.ok () ∧
    taskCompile att (.tupleArg lt) = Except.ok () ∧
    taskCompile att (.single (.otherLoss n)) = Except.ok () ∧
    taskCompile none la = Except.ok () := by
  refine ⟨?_, ?_, ?_, ?_, ?_, ?_, rfl, rfl, rfl, ?_, ?_⟩
  · simp [taskCompile, check_for_loss_mismatch, hS]
    try rfl
  · simp [taskCompile, check_for_loss_mismatch, hS]
    try rfl
  · simp [taskCompile, check_for_loss_mismatch, hL]
    try rfl
  · simp [taskCompile, check_for_loss_mismatch, hL]
    try rfl
  · simp [taskCompile, check_for_loss_mismatch, hS]
    try rfl
  · simp [taskCompile, check_for_loss_mismatch, hL]
    try rfl
  · cases att <;> rfl
  · cases la <;> rfl

/-- Witness for C2: the softmax activation with `from_logits=True`, the
`None` activation (resolved to linear) with `from_logits=False`, and the
skipped configurations, at concrete inputs. -/
theorem compile_loss_activation_mismatch_witness :
    activationsGet ActivationSpec.softmaxSpec = Activation.softmax ∧
    activationsGet ActivationSpec.noneSpec = Activation.linear ∧
    (taskCompile (some .softmaxSpec) (.single (.sccObject true)) =
        Except.error .softmaxWithLogitsLoss ∧
      taskCompile (some .softmaxSpec) (.single (.sccObject false)) =
        Except.ok () ∧
      taskCompile (some .noneSpec) (.single (.sccObject false)) =
        Except.error .logitsWithProbabilityLoss ∧
      taskCompile (some .noneSpec) (.single (.sccObject true)) =
        Except.ok () ∧
      taskCompile (some .softmaxSpec) (.single .sccFunction) =
        Except.ok () ∧
      taskCompile (some .noneSpec) (.single .sccFunction) =
        Except.error .logitsWithProbabilityLoss ∧
      taskCompile (some .linearSpec) (.dictArg [("a", .sccObject true)]) =
        Except.ok () ∧
      taskCompile (some .linearSpec) (.listArg [.sccObject true]) =
        Except.ok () ∧
      taskCompile (some .linearSpec) (.tupleArg [.sccObject true]) =
        Except.ok () ∧
      taskCompile (some .linearSpec) (.single (.otherLoss 0)) =
        Except.ok () ∧
      taskCompile none (.single (.sccObject true)) = Except.ok ()) :=
  ⟨rfl, rfl,
    compile_loss_activation_mismatch .softmaxSpec .noneSpec
      (some .linearSpec) [("a", .sccObject true)] [.sccObject true]
      [.sccObject true] 0 (.single (.sccObject true)) rfl rfl⟩

/-- C5: calling `from_preset` on the abstract base class `Task` raises the
usage error for every preset identifier — the check precedes any preset
inspection, so the result is the same whatever the preset (and whatever
the other arguments). -/
theorem from_preset_on_base_class_errors (env : Env) (preset : PresetId)
    (lw : Bool) (kwargs : Kwargs) :
    from_preset env env.taskBase preset lw kwargs =
      Except.error .calledOnBase := by
  simp [from_preset, except_throw_eq, except_error_bind]

/-- C8: `from_preset` with a `backbone` keyword argument raises the usage
error (telling the caller to use the ordinary constructor), on any
non-base calling class; no preset loading happens — the result does not
depend on the preset identifier at all. -/
theorem from_preset_rejects_backbone_kwarg (env : Env) (cls : ClassId)
    (preset preset' : PresetId) (lw lw' : Bool) (kwargs : Kwargs) (v : Nat)
    (hcls : cls ≠ env.taskBase) (hb : kwargs.lookup "backbone" = some v) :
    from_preset env cls preset lw kwargs =
      Except.error (.backboneArg (env.className cls) v) ∧
    from_preset env cls preset lw kwargs =
      from_preset env cls preset' lw' kwargs := by
  have key : ∀ (p : PresetId) (l : Bool),
      from_preset env cls p l kwargs =
        Except.error (.backboneArg (env.className cls) v) := by
    intro p l
    simp [from_preset, hcls, hb, except_throw_eq, except_error_bind]
  exact ⟨key preset lw, (key preset lw).trans (key preset' lw').symm⟩

/-- Witness for C8: concrete registry, class `1`, two different presets,
and `kwargs` containing a `backbone` entry. -/
theorem from_preset_rejects_backbone_kwarg_witness :
    (1 : ClassId) ≠ exampleEnv.taskBase ∧
    ([("backbone", 7)] : Kwargs).lookup "backbone" = some 7 ∧
    (from_preset exampleEnv 1 101 true [("backbone", 7)] =
        Except.error (.backboneArg (exampleEnv.className 1) 7) ∧
      from_preset exampleEnv 1 101 true [("backbone", 7)] =
        from_preset exampleEnv 1 102 false [("backbone", 7)]) :=
  ⟨by decide, by decide,
    from_preset_rejects_backbone_kwarg exampleEnv 1 101 102 true false
      [("backbone", 7)] 7 (by decide) (by decide)⟩

/-- C6: when the preset's declared class is a task class that is not a
subclass of the calling class, `from_preset` raises the type-mismatch
error, which names the preset's actual class (and the calling class). -/
theorem from_preset_task_type_mismatch (env : Env) (cls tc : ClassId)
    (preset : PresetId) (lw : Bool) (kwargs : Kwargs)
    (hcls : cls ≠ env.taskBase) (hb : kwargs.lookup "backbone" = none)
    (hcc : env.check_config_class preset = .taskCls tc)
    (hsub : env.issub tc cls = false) :
    from_preset env cls preset lw kwargs =
      Except.error (.typeMismatch (env.className tc) (env.className cls)) := by
  simp [from_preset, hcls, hb, hcc, hsub, except_throw_eq,
    except_error_bind, except_map_error]

/-- Witness for C6: class `5` is declared by preset `103` and is not a
subclass of calling class `1`. -/
theorem from_preset_task_type_mismatch_witness :
    (1 : ClassId) ≠ exampleEnv.taskBase ∧
    ([] : Kwargs).lookup "backbone" = none ∧
    exampleEnv.check_config_class 103 = .taskCls 5 ∧
    exampleEnv.issub 5 1 = false ∧
    from_preset exampleEnv 1 103 true [] =
      Except.error
        (.typeMismatch (exampleEnv.className 5) (exampleEnv.className 1)) :=
  ⟨by decide, rfl, by decide, by decide,
    from_preset_task_type_mismatch exampleEnv 1 5 103 true [] (by decide)
      rfl (by decide) (by decide)⟩

/-- C1: in the backbone case with a preset backbone class different from
the calling class's `backbone_cls`, `from_preset` returns an instance of
the unique matching subclass when exactly one registered subclass matches
(and that subclass is not the calling class), raises the no-subclass
resolution error when none matches, and raises the ambiguity error
(listing the matches and directing the caller to a subclass) when more
than one matches. -/
theorem from_preset_backbone_subclass_resolution (env : Env)
    (cls c : ClassId) (preset : PresetId) (lw : Bool) (kwargs : Kwargs)
    (b : BackboneId)
    (hcls : cls ≠ env.taskBase) (hb : kwargs.lookup "backbone" = none)
    (hcc : env.check_config_class preset = .backboneCls b)
    (hmis : env.backbone_cls cls ≠ some b) :
    (matchingSubclasses env cls b = [c] →
      (∃ bb pre rest,
        from_preset env cls preset lw kwargs =
          Except.ok (.taskFromBackbone c bb pre rest)) ∧ c ≠ cls) ∧
    (matchingSubclasses env cls b = [] →
      from_preset env cls preset lw kwargs =
        Except.error (.noSubclass (env.className cls)
          (env.backboneName b))) ∧
    (2 ≤ (matchingSubclasses env cls b).length →
      from_preset env cls preset lw kwargs =
        Except.error (.ambiguous (env.className cls)
          ((matchingSubclasses env cls b).map env.className))) := by
  refine ⟨fun hm => ⟨?_, ?_⟩, fun hm => ?_, fun hm => ?_⟩
  · have hrun : from_preset env cls preset lw kwargs =
        Except.ok (.taskFromBackbone c
          (env.load_backbone preset lw (kwargsPop kwargs "dtype").1)
          (match (kwargsPop (kwargsPop kwargs "dtype").2 "preprocessor").1 with
            | some v => PreprocessorValue.provided v
            | none => PreprocessorValue.constructed (env.preprocessor_cls c)
                (env.load_tokenizer preset))
          (kwargsPop (kwargsPop kwargs "dtype").2 "preprocessor").2) := by
      simp [from_preset, hcls, hb, hcc, hmis, hm, except_throw_eq,
        except_error_bind, except_ok_bind, except_map_ok]
      rfl
    exact ⟨_, _, _, hrun⟩
  · have hcmem : c ∈ matchingSubclasses env cls b := by
      rw [hm]
      exact List.mem_singleton_self c
    have hcb : env.backbone_cls c = some b :=
      of_decide_eq_true (List.mem_filter.mp hcmem).2
    intro heq
    rw [heq] at hcb
    exact hmis hcb
  · simp [from_preset, hcls, hb, hcc, hmis, hm, except_throw_eq,
      except_error_bind, except_map_error]
  · obtain ⟨c1, c2, cs, hform⟩ :
        ∃ c1 c2 cs, matchingSubclasses env cls b = c1 :: c2 :: cs := by
      match hml : matchingSubclasses env cls b with
      | [] => rw [hml] at hm; simp at hm
      | [c1] => rw [hml] at hm; simp at hm
      | c1 :: c2 :: cs => exact ⟨c1, c2, cs, rfl⟩
    rw [hform]
    simp [from_preset, hcls, hb, hcc, hmis, hform, except_throw_eq,
      except_error_bind, except_map_error]

/-- Witness for C1: with the concrete registry, preset `101` declares
backbone class `11`, calling class `1` has no `backbone_cls`, and subclass
`3` is the unique match. -/
theorem from_preset_backbone_subclass_resolution_witness :
    (1 : ClassId) ≠ exampleEnv.taskBase ∧
    ([] : Kwargs).lookup "backbone" = none ∧
    exampleEnv.check_config_class 101 = .backboneCls 11 ∧
    exampleEnv.backbone_cls 1 ≠ some 11 ∧
    ((matchingSubclasses exampleEnv 1 11 = [3] →
      (∃ bb pre rest,
        from_preset exampleEnv 1 101 true [] =
          Except.ok (.taskFromBackbone 3 bb pre rest)) ∧ (3 : ClassId) ≠ 1) ∧
    (matchingSubclasses exampleEnv 1 11 = [] →
      from_preset exampleEnv 1 101 true [] =
        Except.error (.noSubclass (exampleEnv.className 1)
          (exampleEnv.backboneName 11))) ∧
    (2 ≤ (matchingSubclasses exampleEnv 1 11).length →
      from_preset exampleEnv 1 101 true [] =
        Except.error (.ambiguous (exampleEnv.className 1)
          ((matchingSubclasses exampleEnv 1 11).map exampleEnv.className)))) :=
  ⟨by decide, rfl, by decide, by decide,
    from_preset_backbone_subclass_resolution exampleEnv 1 3 101 true [] 11
      (by decide) rfl (by decide) (by decide)⟩

/-- `keysOf` distributes over cons. -/
theorem keysOf_cons (e : PresetEntry) (d : List PresetEntry) :
    keysOf (e :: d) = e.1 :: keysOf d := rfl

/-- `keysOf` distributes over append. -/
theorem keysOf_append (d e : List PresetEntry) :
    keysOf (d ++ e) = keysOf d ++ keysOf e := by
  simp [keysOf]

/-- Overwriting the value at a key leaves the key sequence unchanged. -/
theorem keysOf_replaceVal (d : List PresetEntry) (key : String) (v : Nat) :
    keysOf (d.map fun e => if e.1 = key then (e.1, v) else e) = keysOf d := by
  induction d with
  | nil => rfl
  | cons e rest ih =>
    rw [List.map_cons, keysOf_cons, keysOf_cons, ih]
    by_cases h : e.1 = key <;> simp [h]

/-- Key membership after a Python-dict insert. -/
theorem mem_keysOf_dictInsert (d : List PresetEntry) (kv : PresetEntry)
    (k : String) :
    k ∈ keysOf (dictInsert d kv) ↔ k ∈ keysOf d ∨ k = kv.1 := by
  rw [dictInsert]
  split
  next h =>
    rw [keysOf_replaceVal]
    exact ⟨Or.inl, fun hk => hk.elim id (fun he => he ▸ h)⟩
  next h =>
    rw [keysOf_append]
    simp [keysOf]

/-- A Python-dict insert keeps keys duplicate-free. -/
theorem nodup_keysOf_dictInsert (d : List PresetEntry) (kv : PresetEntry)
    (h : (keysOf d).Nodup) : (keysOf (dictInsert d kv)).Nodup := by
  rw [dictInsert]
  split
  next => rwa [keysOf_replaceVal]
  next hn =>
    rw [keysOf_append]
    exact h.append (List.nodup_singleton kv.1)
      (by simpa [List.disjoint_singleton, keysOf] using hn)

/-- `dictUpdate` on the empty update is the identity. -/
theorem dictUpdate_nil (d : List PresetEntry) : dictUpdate d [] = d := rfl

/-- `dictUpdate` peels one entry at a time. -/
theorem dictUpdate_cons (d : List PresetEntry) (kv : PresetEntry)
    (e : List PresetEntry) :
    dictUpdate d (kv :: e) = dictUpdate (dictInsert d kv) e := rfl

/-- Key membership after `d.update(e)`: the union of both key sets. -/
theorem mem_keysOf_dictUpdate (d e : List PresetEntry) (k : String) :
    k ∈ keysOf (dictUpdate d e) ↔ k ∈ keysOf d ∨ k ∈ keysOf e := by
  induction e generalizing d with
  | nil => simp [dictUpdate_nil, keysOf]
  | cons kv rest ih =>
    rw [dictUpdate_cons, ih, mem_keysOf_dictInsert, keysOf_cons]
    simp [or_assoc]

/-- `d.update(e)` keeps keys duplicate-free. -/
theorem nodup_keysOf_dictUpdate (d e : List PresetEntry)
    (h : (keysOf d).Nodup) : (keysOf (dictUpdate d e)).Nodup := by
  induction e generalizing d with
  | nil => exact h
  | cons kv rest ih =>
    rw [dictUpdate_cons]
    exact ih _ (nodup_keysOf_dictInsert d kv h)

/-- Key membership after merging in the backbone presets. -/
theorem mem_keysOf_withBackbonePresets (own : List PresetEntry)
    (bp : Option (List PresetEntry)) (k : String) :
    k ∈ keysOf (withBackbonePresets own bp) ↔
      k ∈ keysOf own ∨
        k ∈ (match bp with
              | none => ([] : List String)
              | some b => keysOf b) := by
  cases bp with
  | none => simp [withBackbonePresets]
  | some b => simp [withBackbonePresets, mem_keysOf_dictUpdate]

/-- Merging in the backbone presets keeps keys duplicate-free. -/
theorem nodup_keysOf_withBackbonePresets (own : List PresetEntry)
    (bp : Option (List PresetEntry)) (h : (keysOf own).Nodup) :
    (keysOf (withBackbonePresets own bp)).Nodup := by
  cases bp with
  | none => exact h
  | some b => exact nodup_keysOf_dictUpdate own b h

/-- Unfolding `presetsOf` at a node. -/
theorem presetsOf_node (own : List PresetEntry)
    (bp : Option (List PresetEntry)) (subs : List TaskClassTree) :
    presetsOf (.node own bp subs) =
      presetsFold (withBackbonePresets own bp) subs := by
  rw [presetsOf.eq_def]

/-- Unfolding `presetsFold` on the empty subclass list. -/
theorem presetsFold_nil (acc : List PresetEntry) :
    presetsFold acc [] = acc := by
  rw [presetsFold.eq_def]

/-- Unfolding `presetsFold` on a subclass cons. -/
theorem presetsFold_cons (acc : List PresetEntry) (s : TaskClassTree)
    (rest : List TaskClassTree) :
    presetsFold acc (s :: rest) =
      presetsFold (dictUpdate acc (presetsOf s)) rest := by
  rw [presetsFold.eq_def]

/-- Unfolding `unionKeys` at a node. -/
theorem unionKeys_node (own : List PresetEntry)
    (bp : Option (List PresetEntry)) (subs : List TaskClassTree) :
    unionKeys (.node own bp subs) =
      keysOf own ++
        (match bp with
          | none => ([] : List String)
          | some b => keysOf b) ++
        unionKeysList subs := by
  rw [unionKeys.eq_def]

/-- Unfolding `unionKeysList` on the empty list. -/
theorem unionKeysList_nil : unionKeysList [] = [] := by
  rw [unionKeysList.eq_def]

/-- Unfolding `unionKeysList` on a cons. -/
theorem unionKeysList_cons (s : TaskClassTree) (rest : List TaskClassTree) :
    unionKeysList (s :: rest) = unionKeys s ++ unionKeysList rest := by
  rw [unionKeysList.eq_def]

/-- Unfolding `wfTree` at a node. -/
theorem wfTree_node (own : List PresetEntry)
    (bp : Option (List PresetEntry)) (subs : List TaskClassTree) :
    wfTree (.node own bp subs) =
      (decide (keysOf own).Nodup &&
        (match bp with
          | none => true
          | some b => decide (keysOf b).Nodup) &&
        wfTreeList subs) := by
  rw [wfTree.eq_def]

/-- Unfolding `wfTreeList` on a cons. -/
theorem wfTreeList_cons (s : TaskClassTree) (rest : List TaskClassTree) :
    wfTreeList (s :: rest) = (wfTree s && wfTreeList rest) := by
  rw [wfTreeList.eq_def]

mutual

/-- Joint specification of `presetsOf`: duplicate-free keys and key-set
equal to the recursive union. -/
theorem presetsOf_keys (t : TaskClassTree) (h : wfTree t = true) :
    (keysOf (presetsOf t)).Nodup ∧
      ∀ k, k ∈ keysOf (presetsOf t) ↔ k ∈ unionKeys t := by
  match t with
  | .node own bp subs =>
    rw [wfTree_node] at h
    obtain ⟨⟨h1, _⟩, h3⟩ := by
      simpa [Bool.and_eq_true] using h
    have hacc : (keysOf (withBackbonePresets own bp)).Nodup :=
      nodup_keysOf_withBackbonePresets own bp h1
    have hfold := presetsFold_keys subs (withBackbonePresets own bp) hacc h3
    refine ⟨by rw [presetsOf_node]; exact hfold.1, fun k => ?_⟩
    rw [presetsOf_node, hfold.2 k, mem_keysOf_withBackbonePresets,
      unionKeys_node]
    simp [or_assoc]

/-- Joint specification of the subclass loop `presetsFold`. -/
theorem presetsFold_keys (subs : List TaskClassTree) (acc : List PresetEntry)
    (hacc : (keysOf acc).Nodup) (h : wfTreeList subs = true) :
    (keysOf (presetsFold acc subs)).Nodup ∧
      ∀ k, k ∈ keysOf (presetsFold acc subs) ↔
        k ∈ keysOf acc ∨ k ∈ unionKeysList subs := by
  match subs with
  | [] =>
    refine ⟨by rw [presetsFold_nil]; exact hacc, fun k => ?_⟩
    rw [presetsFold_nil, unionKeysList_nil]
    simp
  | s :: rest =>
    rw [wfTreeList_cons] at h
    obtain ⟨hs, hrest⟩ := by simpa [Bool.and_eq_true] using h
    have hS := presetsOf_keys s hs
    have hacc' : (keysOf (dictUpdate acc (presetsOf s))).Nodup :=
      nodup_keysOf_dictUpdate acc (presetsOf s) hacc
    have hR := presetsFold_keys rest (dictUpdate acc (presetsOf s)) hacc' hrest
    refine ⟨by rw [presetsFold_cons]; exact hR.1, fun k => ?_⟩
    rw [presetsFold_cons, hR.2 k, mem_keysOf_dictUpdate, hS.2 k,
      unionKeysList_cons]
    simp [or_assoc]

end

/-- C7: the `presets` class property produces a mapping with no duplicate
keys whose key set is the union of the class's own presets, its
`backbone_cls`'s presets when set, and every registered subclass's
presets, recursively. -/
theorem task_presets_union (t : TaskClassTree) (h : wfTree t = true) :
    (keysOf (presetsOf t)).Nodup ∧
      ∀ k, k ∈ keysOf (presetsOf t) ↔ k ∈ unionKeys t :=
  presetsOf_keys t h

/-- Witness for C7 on the concrete hierarchy `exampleTree`. -/
theorem task_presets_union_witness :
    wfTree exampleTree = true ∧
    ((keysOf (presetsOf exampleTree)).Nodup ∧
      ∀ k, k ∈ keysOf (presetsOf exampleTree) ↔ k ∈ unionKeys exampleTree) :=
  ⟨by decide, task_presets_union exampleTree (by decide)⟩

end KerasNLP
